import Mathlib

/-!
Verification of the predictive public-safety resource-allocation pipeline.

This file gives a shallow embedding, in Lean, of the core data pipeline of
the repository (`ml_prep.py`, `train_model.py`, `recommendation_engine.py`,
`reports/figures/error_analysis.py`) and proves properties of the embedded
code.

Modelling conventions:
* pandas DataFrames become lists of records (one structure per CSV schema);
* floats (coordinates, predicted risk, residuals) become rationals `ℚ`;
* `datetime64` incident dates become a count of days since 1970-01-01;
* the fitted `RandomForestRegressor` is opaque (spec section 3 calls the
  trained model "an opaque fitted regression function"), so batch inference
  is a function parameter `predict`; a float column that may hold NaN
  (`Time_Code` after a partial `.map`) is typed `Option ℕ`;
* `dict.get` / `Series.map` lookups that yield `None`/NaN for missing keys
  become `Option`-valued lookups on association lists;
* the external H3 grid indexer (`h3pandas`) is a function parameter
  `centroid : String → ℚ × ℚ` mapping a cell id to its centroid.
-/

/-- First-occurrence de-duplication with an accumulator of already-seen
elements.  Models both `pandas.Series.unique()` (order of first occurrence)
and `DataFrame.drop_duplicates()` (keep the first of each duplicate group). -/
def dropDupFirstAux {α : Type} [DecidableEq α] (seen : List α) : List α → List α
  | [] => []
  | a :: l => if a ∈ seen then dropDupFirstAux seen l else a :: dropDupFirstAux (a :: seen) l

/-- First-occurrence de-duplication of a list, as performed by
`pandas.Series.unique()` and `DataFrame.drop_duplicates()`. -/
def dropDupFirst {α : Type} [DecidableEq α] (l : List α) : List α :=
  dropDupFirstAux [] l

/-- Models Python's `enumerate` inside the dict comprehension
`{label: idx for idx, label in enumerate(...)}`: pair each list element with
its index, starting from `k`, keyed by the element. -/
def labelCodesFrom : ℕ → List String → List (String × ℕ)
  | _, [] => []
  | k, a :: l => (a, k) :: labelCodesFrom (k + 1) l

/-- The time-period code mapping built identically at
`recommendation_engine.py:24`, `train_model.py:26` and
`error_analysis.py:24`:
`time_mapping = {label: idx for idx, label in enumerate(df['Time_Period'].unique())}`. -/
def time_mapping (col : List String) : List (String × ℕ) :=
  labelCodesFrom 0 (dropDupFirst col)

/-- Decoding a time-period code back to its label: the inverse lookup of the
`time_mapping` dict (spec section 8 round-trip property). -/
def decode_label (m : List (String × ℕ)) (c : ℕ) : Option String :=
  (m.find? (fun p => p.2 == c)).map (fun p => p.1)

/-- Models `Series.dt.dayofweek` as used at `ml_prep.py:66`
(`gdf_hex['IncidentDate'].dt.dayofweek`): pandas codes Monday = 0 …
Sunday = 6.  A date is a count of days since 1970-01-01, which was a
Thursday, hence code `(date + 3) % 7`. -/
def dayofweek (date : ℕ) : ℕ :=
  (date + 3) % 7

/-- The seven day names in the order of the pandas `dt.dayofweek` codes
(Monday = 0 … Sunday = 6), so that `weekNames[dayofweek d]` is the name of
the weekday on which day `d` falls. -/
def weekNames : List String :=
  ["Monday", "Tuesday", "Wednesday", "Thursday", "Friday", "Saturday", "Sunday"]

/-- Name of the weekday a date falls on, per the pandas convention. -/
def weekdayName (date : ℕ) : String :=
  weekNames.getD (dayofweek date) ""

/-- One cleaned incident record after H3 grid assignment
(`ml_prep.py:44-63`): the `h3_polyfill` cell id, the `IncidentDate` (days
since 1970-01-01) and the `Time_Period` label. -/
structure HexRecord where
  h3 : String
  date : ℕ
  timePeriod : String
deriving DecidableEq

/-- The `groupby` key of `ml_prep.py:70-73`:
`(h3_polyfill, Day_Num, Time_Period)` with `Day_Num` derived from the
incident date. -/
def recKey (x : HexRecord) : String × ℕ × String :=
  (x.h3, dayofweek x.date, x.timePeriod)

/-- Lexicographic order on group keys: pandas `groupby` (default
`sort=True`) returns the groups sorted by key. -/
def keyLE (a b : String × ℕ × String) : Prop :=
  a.1 < b.1 ∨ (a.1 = b.1 ∧ (a.2.1 < b.2.1 ∨ (a.2.1 = b.2.1 ∧
    (a.2.2 < b.2.2 ∨ a.2.2 = b.2.2))))

instance (a b : String × ℕ × String) : Decidable (keyLE a b) :=
  inferInstanceAs (Decidable (a.1 < b.1 ∨ (a.1 = b.1 ∧ (a.2.1 < b.2.1 ∨ (a.2.1 = b.2.1 ∧
    (a.2.2 < b.2.2 ∨ a.2.2 = b.2.2))))))

/-- The distinct group keys of a `groupby`, in the order pandas returns
them: the distinct keys occurring in the data, sorted. -/
def groupKeys {α κ : Type} [DecidableEq κ] (key : α → κ) (kle : κ → κ → Prop)
    [DecidableRel kle] (l : List α) : List κ :=
  List.insertionSort kle (dropDupFirst (l.map key))

/-- One row of the `ml_ready` tables (`train_2023.csv` / `test_2024.csv`)
written by `ml_prep.py`: columns `h3_polyfill`, `Day_Num`, `Time_Period`,
`Incident_Count`, `Latitude`, `Longitude` (cell centroid). -/
structure MLRow where
  h3 : String
  dayNum : ℕ
  timePeriod : String
  count : ℕ
  lat : ℚ
  lon : ℚ
deriving DecidableEq

/-- The aggregation steps 3-5 of `process_year` (`ml_prep.py:66-96`): group
the records by `(h3_polyfill, Day_Num, Time_Period)`, take each group's size
as `Incident_Count`, and attach the centroid of the cell id (`h3_to_geo`,
modelled by the parameter `centroid`, a pure function of the id). -/
def buildRiskTable (centroid : String → ℚ × ℚ) (records : List HexRecord) : List MLRow :=
  (groupKeys recKey keyLE records).map (fun k =>
    { h3 := k.1, dayNum := k.2.1, timePeriod := k.2.2,
      count := (records.filter (fun x => decide (recKey x = k))).length,
      lat := (centroid k.1).1, lon := (centroid k.1).2 })

/-- The environment `process_year` (`ml_prep.py:13-100`) runs in: which of
its fallible steps succeed, and the records of the input file.  `crsKnown`
is recorded but unused because a missing CRS only prints a warning and
assumes EPSG:4326 (`ml_prep.py:35-37`); `coordsResolvable` is whether
`gdf.h3.geo_to_h3` succeeds on the file's geometry; `h3ColFound` is whether
a column starting with `h3_` exists afterwards; `hasDateColumn` is whether
`IncidentDate` is present as a datetime column. -/
structure BuildInput where
  fileExists : Bool
  readOk : Bool
  crsKnown : Bool
  coordsResolvable : Bool
  h3ColFound : Bool
  hasDateColumn : Bool
  records : List HexRecord

/-- Outcome of one `process_year` call.  `skipped` / `failed` are the
handled paths that print a message and return `None`; `raised` is an
uncaught Python exception propagating out of the function. -/
inductive BuildResult where
  | table : List MLRow → BuildResult
  | skipped : String → BuildResult
  | failed : String → BuildResult
  | raised : String → BuildResult
deriving DecidableEq

/-- Whether a `process_year` outcome is an uncaught exception escaping the
function (as opposed to a handled message-plus-`None` return or a table). -/
def isRaised : BuildResult → Bool
  | BuildResult.raised _ => true
  | _ => false

/-- `process_year` (`ml_prep.py:13-100`).  Missing file: print and return
`None` (line 21-24).  Unreadable file: caught, print, `None` (26-31).
Missing CRS: warning only, proceed (35-39).  `geo_to_h3` failure: caught,
print, `None` (43-47).  No `h3_` column: print, `None` (53-57).  The
`Day_Num` derivation `gdf_hex['IncidentDate'].dt.dayofweek` (line 66) is
NOT inside any `try`: a missing `IncidentDate` column raises an uncaught
`KeyError`.  Otherwise the risk table is built and returned. -/
def process_year (centroid : String → ℚ × ℚ) (inp : BuildInput) : BuildResult :=
  if inp.fileExists then
    if inp.readOk then
      if inp.coordsResolvable then
        if inp.h3ColFound then
          if inp.hasDateColumn then
            BuildResult.table (buildRiskTable centroid inp.records)
          else
            BuildResult.raised "KeyError: IncidentDate"
        else
          BuildResult.failed "Error: Could not find H3 index column after processing."
      else
        BuildResult.failed "Error during hex grid generation"
    else
      BuildResult.failed "Error reading file"
  else
    BuildResult.skipped "Not Found"

/-- One row of the hypothetical query table built inside
`get_recommendations` (`recommendation_engine.py:53-61`): a reference cell
with the query's `Day_Num` and `Time_Code` and the model's predicted risk. -/
structure PredRow where
  h3 : String
  lat : ℚ
  lon : ℚ
  dayNum : ℕ
  timeCode : ℕ
  risk : ℚ
deriving DecidableEq

/-- Ascending comparison on predicted risk, the sort key of
`sort_values('Predicted_Risk', ...)` at `recommendation_engine.py:64`. -/
def riskLE (a b : PredRow) : Prop :=
  a.risk ≤ b.risk

instance (a b : PredRow) : Decidable (riskLE a b) :=
  inferInstanceAs (Decidable (a.risk ≤ b.risk))

instance : IsTotal PredRow riskLE :=
  ⟨fun a b => le_total a.risk b.risk⟩

instance : IsTrans PredRow riskLE :=
  ⟨fun _ _ _ h1 h2 => le_trans h1 h2⟩

/-- Models `DataFrame.sort_values('Predicted_Risk', ascending=False)` at
`recommendation_engine.py:64`.  For `ascending=False`, pandas
(`pandas.core.sorting.nargsort`) reverses the values and the index array,
argsorts the reversed values ascending, and reverses the resulting indexer
again; as row lists this is reverse, stable ascending sort, reverse.  The
double reversal makes the descending sort stable: rows with equal keys keep
their original relative order whenever the underlying argsort kernel is
stable (numpy's default kind coincides with a stable insertion sort below
its small-array introsort cutoff; `kind='stable'` always), which is the
regime this embedding models. -/
def sort_values_desc (l : List PredRow) : List PredRow :=
  (List.insertionSort riskLE l.reverse).reverse

/-- The state `load_and_train` (`recommendation_engine.py:14-34`) hands to
every query: the fitted model (opaque, a function from the four features to
a predicted count), the `time_mapping` dict, and the reference table
`df_ref`. -/
structure EngineState where
  predict : ℚ → ℚ → ℕ → ℕ → ℚ
  timeMapping : List (String × ℕ)
  dfRef : List MLRow

/-- The day-name table of `recommendation_engine.py:43`. -/
def days : List (String × ℕ) :=
  [("Monday", 0), ("Tuesday", 1), ("Wednesday", 2), ("Thursday", 3),
   ("Friday", 4), ("Saturday", 5), ("Sunday", 6)]

/-- Step 1 of `get_recommendations` (`recommendation_engine.py:53`):
`df_ref[['h3_polyfill', 'Latitude', 'Longitude']].drop_duplicates()`. -/
def refTriples (df : List MLRow) : List (String × ℚ × ℚ) :=
  dropDupFirst (df.map (fun r => (r.h3, r.lat, r.lon)))

/-- Steps 2-3 of `get_recommendations` (`recommendation_engine.py:55-61`):
one query row per reference cell with the query's day and time code, and the
model's batch prediction attached. -/
def query_rows (st : EngineState) (d c : ℕ) : List PredRow :=
  (refTriples st.dfRef).map (fun z =>
    { h3 := z.1, lat := z.2.1, lon := z.2.2, dayNum := d, timeCode := c,
      risk := st.predict z.2.1 z.2.2 d c })

/-- `get_recommendations` (`recommendation_engine.py:36-69`), with the
engine state passed explicitly and returned so that state change is
observable.  Day name and time period are resolved with `dict.get`
(`None` for a missing key); on `None` the function prints an error and
returns without predicting (line 47-49), modelled as result `none`.
Otherwise it returns the full prediction table and the
`sort_values(ascending=False).head(10)` top slice.  The source never
mutates the model, the mapping or `df_ref` (column selection and
`drop_duplicates` copy the frame), so the state is returned unchanged. -/
def get_recommendations (st : EngineState) (day_name time_period : String) :
    Option (List PredRow × List PredRow) × EngineState :=
  (match days.lookup day_name, st.timeMapping.lookup time_period with
    | some d, some c =>
      some (query_rows st d c, (sort_values_desc (query_rows st d c)).take 10)
    | _, _ => none,
   st)

/-- `load_and_train` (`recommendation_engine.py:14-34`): build the
`time_mapping` dict from the training table's `Time_Period` column, fit the
model (opaque, modelled by the `fit` parameter) and keep the table as
reference data. -/
def load_and_train (fit : List MLRow → (ℚ → ℚ → ℕ → ℕ → ℚ)) (df : List MLRow) :
    EngineState :=
  { predict := fit df,
    timeMapping := time_mapping (df.map (fun r => r.timePeriod)),
    dfRef := df }

/-- The per-row error of `error_analysis.py:38-44`:
`Error = Incident_Count - Predicted`, where the prediction reads the row's
features and its `Time_Code` produced by `test_df['Time_Period'].map(time_mapping)`
(`None` models the NaN that `.map` writes for a label missing from the
mapping). -/
def row_error (P : ℚ → ℚ → ℕ → Option ℕ → ℚ) (m : List (String × ℕ)) (r : MLRow) : ℚ :=
  (r.count : ℚ) - P r.lat r.lon r.dayNum (m.lookup r.timePeriod)

/-- The location key of `error_analysis.py:48`: `(Latitude, Longitude)`. -/
def locKey (e : ℚ × ℚ × ℚ) : ℚ × ℚ :=
  (e.1, e.2.1)

/-- Lexicographic order on location keys (pandas `groupby` sorts them). -/
def locLE (a b : ℚ × ℚ) : Prop :=
  a.1 < b.1 ∨ (a.1 = b.1 ∧ a.2 ≤ b.2)

instance (a b : ℚ × ℚ) : Decidable (locLE a b) :=
  inferInstanceAs (Decidable (a.1 < b.1 ∨ (a.1 = b.1 ∧ a.2 ≤ b.2)))

/-- Step 5 of `analyze_errors` (`error_analysis.py:46-48`):
`test_df.groupby(['Latitude', 'Longitude'])['Error'].mean()` over a list of
`(Latitude, Longitude, Error)` rows — each group's mean is the sum of its
errors divided by its size. -/
def location_errors (rows : List (ℚ × ℚ × ℚ)) : List (ℚ × ℚ × ℚ) :=
  (groupKeys locKey locLE rows).map (fun k =>
    (k.1, k.2,
      ((rows.filter (fun e => decide (locKey e = k))).map (fun e => e.2.2)).sum /
        ((rows.filter (fun e => decide (locKey e = k))).length : ℚ)))

/-- The computational core of `analyze_errors`
(`error_analysis.py:14-54`): build the `time_mapping` from the training
table, encode the evaluation table's labels with it, predict (the fitted
forest is opaque, modelled by `P`), take per-row residuals and aggregate
their mean per location.  File loading and plotting are omitted; the model
fit on the encoded training table is the parameter `P`. -/
def analyze_errors (P : ℚ → ℚ → ℕ → Option ℕ → ℚ) (train test : List MLRow) :
    List (ℚ × ℚ × ℚ) :=
  location_errors (test.map (fun r =>
    (r.lat, r.lon, row_error P (time_mapping (train.map (fun x => x.timePeriod))) r)))

/-- Training table for concrete runs: a single realized bucket with label
`Morning`. -/
def trainDemo : List MLRow :=
  [{ h3 := "a", dayNum := 0, timePeriod := "Morning", count := 3, lat := 1, lon := 2 }]

/-- Evaluation table for concrete runs: same location, but its label
`Evening` never occurs in `trainDemo`. -/
def testDemo : List MLRow :=
  [{ h3 := "a", dayNum := 1, timePeriod := "Evening", count := 5, lat := 1, lon := 2 }]

/-- A concrete opaque model for the analyzer: predicts 2 everywhere. -/
def predictDemo : ℚ → ℚ → ℕ → Option ℕ → ℚ :=
  fun _ _ _ _ => 2

/-- A concrete engine state: a model that predicts the same risk 1 for every
cell, one known time period, and two reference cells `a` (first) and `b`
(second). -/
def stateDemo : EngineState :=
  { predict := fun _ _ _ _ => 1,
    timeMapping := [("Late_Night", 0)],
    dfRef :=
      [{ h3 := "a", dayNum := 0, timePeriod := "Late_Night", count := 1, lat := 0, lon := 0 },
       { h3 := "b", dayNum := 0, timePeriod := "Late_Night", count := 1, lat := 1, lon := 1 }] }

/-- A concrete grid-indexer centroid function. -/
def centroidDemo : String → ℚ × ℚ :=
  fun _ => (36, -115)

/-- Concrete records for `process_year` runs: two incidents in the same
(cell, weekday, period) bucket — days 5 and 12 are both Tuesdays — and one
in another. -/
def recsDemo : List HexRecord :=
  [{ h3 := "a", date := 5, timePeriod := "Morning" },
   { h3 := "a", date := 12, timePeriod := "Morning" },
   { h3 := "b", date := 6, timePeriod := "Evening" }]

/-- A well-formed input file for `process_year`. -/
def inpOk : BuildInput :=
  { fileExists := true, readOk := true, crsKnown := true, coordsResolvable := true,
    h3ColFound := true, hasDateColumn := true, records := recsDemo }

/-- An input file whose records have valid coordinates but no resolvable
`IncidentDate` column. -/
def inpNoDates : BuildInput :=
  { fileExists := true, readOk := true, crsKnown := true, coordsResolvable := true,
    h3ColFound := true, hasDateColumn := false, records := recsDemo }

/-- An input file whose records lack resolvable coordinates, so
`geo_to_h3` fails. -/
def inpNoCoords : BuildInput :=
  { fileExists := true, readOk := true, crsKnown := true, coordsResolvable := false,
    h3ColFound := true, hasDateColumn := true, records := recsDemo }

/-- The risk table built from the demo records. -/
def tableDemo : List MLRow :=
  buildRiskTable centroidDemo recsDemo

theorem mem_dropDupFirstAux {α : Type} [DecidableEq α] (x : α) :
    ∀ (l seen : List α), x ∈ dropDupFirstAux seen l ↔ x ∈ l ∧ x ∉ seen
  | [], seen => by simp [dropDupFirstAux]
  | a :: l, seen => by
    by_cases h : a ∈ seen
    · rw [show dropDupFirstAux seen (a :: l) = dropDupFirstAux seen l by
        simp [dropDupFirstAux, if_pos h]]
      rw [mem_dropDupFirstAux x l seen]
      constructor
      · exact fun ⟨h1, h2⟩ => ⟨List.mem_cons_of_mem a h1, h2⟩
      · rintro ⟨h1, h2⟩
        rcases List.mem_cons.mp h1 with h1 | h1
        · exact absurd (h1 ▸ h) h2
        · exact ⟨h1, h2⟩
    · rw [show dropDupFirstAux seen (a :: l) = a :: dropDupFirstAux (a :: seen) l by
        simp [dropDupFirstAux, if_neg h]]
      rw [List.mem_cons, mem_dropDupFirstAux x l (a :: seen)]
      constructor
      · rintro (h1 | ⟨h1, h2⟩)
        · subst h1
          exact ⟨List.mem_cons_self x l, h⟩
        · refine ⟨List.mem_cons_of_mem a h1, fun hx => h2 ?_⟩
          exact List.mem_cons_of_mem a hx
      · rintro ⟨h1, h2⟩
        rcases List.mem_cons.mp h1 with h1 | h1
        · exact Or.inl h1
        · by_cases hxa : x = a
          · exact Or.inl hxa
          · refine Or.inr ⟨h1, fun hx => ?_⟩
            rcases List.mem_cons.mp hx with h3 | h3
            · exact hxa h3
            · exact h2 h3

theorem mem_dropDupFirst {α : Type} [DecidableEq α] {x : α} {l : List α} :
    x ∈ dropDupFirst l ↔ x ∈ l := by
  simp [dropDupFirst, mem_dropDupFirstAux]

theorem nodup_dropDupFirstAux {α : Type} [DecidableEq α] :
    ∀ (l seen : List α), (dropDupFirstAux seen l).Nodup
  | [], seen => by simp [dropDupFirstAux]
  | a :: l, seen => by
    by_cases h : a ∈ seen
    · simpa [dropDupFirstAux, if_pos h] using nodup_dropDupFirstAux l seen
    · rw [show dropDupFirstAux seen (a :: l) = a :: dropDupFirstAux (a :: seen) l by
        simp [dropDupFirstAux, if_neg h]]
      refine List.Nodup.cons ?_ (nodup_dropDupFirstAux l (a :: seen))
      intro hmem
      exact ((mem_dropDupFirstAux a l (a :: seen)).1 hmem).2 (List.mem_cons_self a seen)

theorem nodup_dropDupFirst {α : Type} [DecidableEq α] (l : List α) :
    (dropDupFirst l).Nodup :=
  nodup_dropDupFirstAux l []

theorem lookup_labelCodesFrom_ge :
    ∀ (L : List String) (k : ℕ) (l : String) (c : ℕ),
      (labelCodesFrom k L).lookup l = some c → k ≤ c
  | [], _, _, _ => by simp [labelCodesFrom]
  | a :: L, k, l, c => by
    simp only [labelCodesFrom, List.lookup]
    by_cases h : l = a
    · simp only [h, beq_self_eq_true]
      exact fun hc => by simpa using (Option.some_injective _ hc) ▸ Nat.le_refl k
    · simp only [beq_eq_false_iff_ne.mpr h]
      exact fun hc => Nat.le_of_succ_le (lookup_labelCodesFrom_ge L (k + 1) l c hc)

theorem lookup_labelCodesFrom_isSome :
    ∀ (L : List String) (k : ℕ) (l : String),
      ((labelCodesFrom k L).lookup l).isSome = true ↔ l ∈ L
  | [], _, _ => by simp [labelCodesFrom]
  | a :: L, k, l => by
    simp only [labelCodesFrom, List.lookup, List.mem_cons]
    by_cases h : l = a
    · simp [h]
    · simp only [beq_eq_false_iff_ne.mpr h, h, false_or]
      exact lookup_labelCodesFrom_isSome L (k + 1) l

theorem decode_lookup_labelCodesFrom :
    ∀ (L : List String) (k : ℕ) (l : String) (c : ℕ),
      (labelCodesFrom k L).lookup l = some c →
      decode_label (labelCodesFrom k L) c = some l
  | [], _, _, _ => by simp [labelCodesFrom]
  | a :: L, k, l, c => by
    simp only [labelCodesFrom, List.lookup]
    by_cases h : l = a
    · simp only [h, beq_self_eq_true, Option.some.injEq]
      intro hc
      subst hc
      simp [decode_label, List.find?, h]
    · simp only [beq_eq_false_iff_ne.mpr h]
      intro hc
      have hge : k + 1 ≤ c := lookup_labelCodesFrom_ge L (k + 1) l c hc
      have hne : (k == c) = false := by
        simp only [beq_eq_false_iff_ne]
        omega
      simp only [decode_label, List.find?, hne]
      exact decode_lookup_labelCodesFrom L (k + 1) l c hc

theorem map_snd_labelCodesFrom :
    ∀ (L : List String) (k : ℕ),
      (labelCodesFrom k L).map Prod.snd = List.range' k L.length
  | [], _ => by simp [labelCodesFrom]
  | a :: L, k => by
    simp only [labelCodesFrom, List.map, List.length_cons, List.range'_succ]
    exact congrArg _ (map_snd_labelCodesFrom L (k + 1))

theorem lookup_labelCodesFrom_eq_none :
    ∀ (L : List String) (k : ℕ) (l : String), l ∉ L →
      (labelCodesFrom k L).lookup l = none
  | [], _, _, _ => by simp [labelCodesFrom]
  | a :: L, k, l, h => by
    have h1 : l ≠ a := fun hx => h (hx ▸ List.mem_cons_self a L)
    have h2 : l ∉ L := fun hx => h (List.mem_cons_of_mem a hx)
    simp only [labelCodesFrom, List.lookup, beq_eq_false_iff_ne.mpr h1]
    exact lookup_labelCodesFrom_eq_none L (k + 1) l h2

/-- C5.  The time-period code mapping built from the training table's
`Time_Period` column is a bijection from the observed label set onto the
codes `0, 1, …, n-1`: every label occurring in the column is encoded to some
code and decoding that code recovers the label, a label outside the column is
not encodable (the lookup yields no value), and the assigned codes are
exactly the distinct integers `0 … n-1` in order. -/
theorem c5_time_mapping_bijection (col : List String) :
    (∀ l ∈ col,
        ((time_mapping col).lookup l).isSome = true ∧
        ((time_mapping col).lookup l).bind (decode_label (time_mapping col)) = some l) ∧
    (∀ l, l ∉ col → (time_mapping col).lookup l = none) ∧
    (time_mapping col).map Prod.snd = List.range' 0 (dropDupFirst col).length := by
  refine ⟨?_, ?_, map_snd_labelCodesFrom _ 0⟩
  · intro l hl
    have hmem : l ∈ dropDupFirst col := mem_dropDupFirst.mpr hl
    have hsome : ((time_mapping col).lookup l).isSome = true :=
      (lookup_labelCodesFrom_isSome _ 0 l).mpr hmem
    refine ⟨hsome, ?_⟩
    obtain ⟨c, hc⟩ := Option.isSome_iff_exists.mp hsome
    rw [hc]
    exact decode_lookup_labelCodesFrom _ 0 l c hc
  · intro l hl
    exact lookup_labelCodesFrom_eq_none _ 0 l (fun hx => hl (mem_dropDupFirst.mp hx))

/-- Concrete instantiation of `c5_time_mapping_bijection`: with training
labels `["Morning", "Afternoon", "Morning"]`, the unseen label `"Night"`
cannot be encoded. -/
theorem c5_time_mapping_bijection_witness :
    (time_mapping ["Morning", "Afternoon", "Morning"]).lookup "Night" = none :=
  (c5_time_mapping_bijection ["Morning", "Afternoon", "Morning"]).2.1 "Night" (by decide)

lemma get_recommendations_result_none {st : EngineState} {day_name time_period : String}
    (h : days.lookup day_name = none ∨ st.timeMapping.lookup time_period = none) :
    (get_recommendations st day_name time_period).1 = none := by
  rcases h with h | h
  · simp [get_recommendations, h]
  · rcases hd : days.lookup day_name with _ | d
    · simp [get_recommendations, hd]
    · simp [get_recommendations, hd, h]

/-- C10.  The day-name table of `get_recommendations`
(`recommendation_engine.py:43`, Monday = 0 … Sunday = 6) assigns to each day
name exactly the `Day_Num` value that `ml_prep.py:66` derives from an
incident date falling on that weekday via `dt.dayofweek`, so a query for a
day name is encoded with the same code the model was trained on for that
weekday. -/
theorem c10_day_table_matches_dayofweek (date : ℕ) :
    days.lookup (weekdayName date) = some (dayofweek date) := by
  simp only [weekdayName]
  have h : dayofweek date = 0 ∨ dayofweek date = 1 ∨ dayofweek date = 2 ∨
      dayofweek date = 3 ∨ dayofweek date = 4 ∨ dayofweek date = 5 ∨
      dayofweek date = 6 := by
    unfold dayofweek
    omega
  rcases h with h | h | h | h | h | h | h <;> rw [h] <;> decide

/-- C9.  `get_recommendations` has no side effect beyond producing its
result: the engine state after a query — the fitted model, the time-code
mapping and the reference cell data — is the state that was passed in. -/
theorem c9_query_preserves_state (st : EngineState) (day_name time_period : String) :
    (get_recommendations st day_name time_period).2 = st ∧
    ((get_recommendations st day_name time_period).2).predict = st.predict ∧
    ((get_recommendations st day_name time_period).2).timeMapping = st.timeMapping ∧
    ((get_recommendations st day_name time_period).2).dfRef = st.dfRef :=
  ⟨rfl, rfl, rfl, rfl⟩

/-- C8.  Recommendation queries are deterministic: issuing the same query
again, against the state left behind by a first identical query, produces
the identical result. -/
theorem c8_recommend_deterministic (st : EngineState) (day_name time_period : String) :
    (get_recommendations ((get_recommendations st day_name time_period).2)
        day_name time_period).1 =
      (get_recommendations st day_name time_period).1 :=
  rfl

/-- C3.  A query with a day name outside the seven-day table or a
time-period label outside the trained mapping fails (result `none`, the
modelled print-and-return of `recommendation_engine.py:47-49`), leaves the
state untouched, and performs no prediction: the failure result does not
depend on the model at all. -/
theorem c3_invalid_query_fails (st : EngineState) (day_name time_period : String)
    (h : days.lookup day_name = none ∨ st.timeMapping.lookup time_period = none) :
    (get_recommendations st day_name time_period).1 = none ∧
    (get_recommendations st day_name time_period).2 = st ∧
    ∀ P : ℚ → ℚ → ℕ → ℕ → ℚ,
      (get_recommendations { st with predict := P } day_name time_period).1 = none := by
  refine ⟨get_recommendations_result_none h, rfl, fun P => ?_⟩
  exact @get_recommendations_result_none { st with predict := P } day_name time_period h

/-- Concrete instantiation of `c3_invalid_query_fails`: querying the demo
engine for the unknown day name `Funday` produces no result. -/
theorem c3_invalid_query_fails_witness :
    (get_recommendations stateDemo "Funday" "Late_Night").1 = none :=
  (c3_invalid_query_fails stateDemo "Funday" "Late_Night" (Or.inl (by decide))).1

/-- C2 (code bug).  An evaluation-table time-period label never seen during
training does NOT make the error analysis fail with an encoding error:
`test_df['Time_Period'].map(time_mapping)` (`error_analysis.py:26`) writes a
missing value (here `none`) for the unseen label `Evening`, and
`analyze_errors` proceeds to produce a residual row for that location
instead of failing. -/
theorem c2_unseen_label_not_an_encoding_error :
    (time_mapping (trainDemo.map (fun r => r.timePeriod))).lookup "Evening" = none ∧
    analyze_errors predictDemo trainDemo testDemo = [(1, 2, 3)] := by
  constructor
  · decide
  · norm_num [analyze_errors, location_errors, groupKeys, time_mapping, dropDupFirst,
      dropDupFirstAux, labelCodesFrom, row_error, locKey, predictDemo, trainDemo, testDemo,
      List.insertionSort, List.orderedInsert, List.lookup]

/-- C7 (code bug).  An input file with resolvable coordinates but no
resolvable `IncidentDate` column makes `process_year` abort with an uncaught
`KeyError` (line 66 of `ml_prep.py` sits outside every `try` block) instead
of the handled print-a-named-error-and-return-`None` path that the
coordinate failure (shown for contrast) takes; no partial table is
returned in either case. -/
theorem c7_missing_dates_raise_uncaught :
    process_year centroidDemo inpNoDates = BuildResult.raised "KeyError: IncidentDate" ∧
    isRaised (process_year centroidDemo inpNoDates) = true ∧
    process_year centroidDemo inpNoCoords =
      BuildResult.failed "Error during hex grid generation" ∧
    isRaised (process_year centroidDemo inpNoCoords) = false :=
  ⟨rfl, rfl, rfl, rfl⟩

lemma nodup_groupKeys {α κ : Type} [DecidableEq κ] (key : α → κ) (kle : κ → κ → Prop)
    [DecidableRel kle] (l : List α) : (groupKeys key kle l).Nodup :=
  (List.perm_insertionSort kle (dropDupFirst (l.map key))).nodup_iff.mpr
    (nodup_dropDupFirst _)

lemma mem_groupKeys {α κ : Type} [DecidableEq κ] {key : α → κ} {kle : κ → κ → Prop}
    [DecidableRel kle] {k : κ} {l : List α} :
    k ∈ groupKeys key kle l ↔ ∃ a, a ∈ l ∧ key a = k := by
  rw [groupKeys, (List.perm_insertionSort kle _).mem_iff, mem_dropDupFirst, List.mem_map]

/-- C4.  Whenever `process_year` produces a risk table, the group key
`(cell id, day-of-week, time-period)` is unique across its rows, and every
row's `Incident_Count` is the number of source records mapped to that bucket
(group cardinality, hence a non-negative integer) and is positive — so a
combination with zero observed incidents is never materialized as a row. -/
theorem c4_risk_table_buckets (centroid : String → ℚ × ℚ) (inp : BuildInput)
    (t : List MLRow) (h : process_year centroid inp = BuildResult.table t) :
    (t.map (fun r => (r.h3, r.dayNum, r.timePeriod))).Nodup ∧
    ∀ r ∈ t, 0 < r.count ∧
      r.count = (inp.records.filter (fun x =>
        decide (x.h3 = r.h3 ∧ dayofweek x.date = r.dayNum ∧
          x.timePeriod = r.timePeriod))).length := by
  have ht : buildRiskTable centroid inp.records = t := by
    cases hfe : inp.fileExists <;> cases hro : inp.readOk <;>
      cases hcr : inp.coordsResolvable <;> cases hh3 : inp.h3ColFound <;>
      cases hhd : inp.hasDateColumn <;>
      simp [process_year, hfe, hro, hcr, hh3, hhd] at h
    exact h
  subst ht
  constructor
  · rw [buildRiskTable, List.map_map]
    have heq : (groupKeys recKey keyLE inp.records).map
        ((fun r : MLRow => (r.h3, r.dayNum, r.timePeriod)) ∘ (fun k : String × ℕ × String =>
          ({ h3 := k.1, dayNum := k.2.1, timePeriod := k.2.2,
             count := (inp.records.filter (fun x => decide (recKey x = k))).length,
             lat := (centroid k.1).1, lon := (centroid k.1).2 } : MLRow))) =
        groupKeys recKey keyLE inp.records := List.map_id _
    rw [heq]
    exact nodup_groupKeys _ _ _
  · intro r hr
    rw [buildRiskTable] at hr
    obtain ⟨k, hk, hrk⟩ := List.mem_map.mp hr
    subst hrk
    constructor
    · obtain ⟨a, ha, hak⟩ := mem_groupKeys.mp hk
      have hmem : a ∈ inp.records.filter (fun x => decide (recKey x = k)) :=
        List.mem_filter.mpr ⟨ha, by simp [hak]⟩
      exact List.length_pos_of_mem hmem
    · show (inp.records.filter (fun x => decide (recKey x = k))).length = _
      congr 1
      apply List.filter_congr
      intro x _
      rw [decide_eq_decide]
      constructor
      · intro hxk
        subst hxk
        exact ⟨rfl, rfl, rfl⟩
      · rintro ⟨h1, h2, h3⟩
        show (x.h3, dayofweek x.date, x.timePeriod) = k
        rw [h1, h2, h3]

/-- Concrete instantiation of `c4_risk_table_buckets`: the table built from
the demo records has no duplicate group key. -/
theorem c4_risk_table_buckets_witness :
    (tableDemo.map (fun r => (r.h3, r.dayNum, r.timePeriod))).Nodup :=
  (c4_risk_table_buckets centroidDemo inpOk tableDemo rfl).1

lemma filter_map_locKey (P : ℚ → ℚ → ℕ → Option ℕ → ℚ) (m : List (String × ℕ))
    (test : List MLRow) (k : ℚ × ℚ) :
    (test.map (fun r => (r.lat, r.lon, row_error P m r))).filter
        (fun e => decide (locKey e = k)) =
      (test.filter (fun r => decide (r.lat = k.1 ∧ r.lon = k.2))).map
        (fun r => (r.lat, r.lon, row_error P m r)) := by
  rw [List.filter_map]
  congr 1
  apply List.filter_congr
  intro r _
  show decide (locKey (r.lat, r.lon, row_error P m r) = k) = _
  rw [decide_eq_decide]
  show (r.lat, r.lon) = k ↔ _
  rw [Prod.ext_iff]

/-- C6.  For every evaluation table, the error analyzer produces one output
row per distinct location `(Latitude, Longitude)`, whose value is the mean —
sum divided by group size — of the per-row residuals `actual − predicted`
(actual `Incident_Count` minus the model's prediction, so a positive value
is an under-prediction) of exactly the evaluation rows at that location,
collapsing across day-of-week and time-period; and every evaluation row's
location is represented in the output. -/
theorem c6_residual_mean_by_location (P : ℚ → ℚ → ℕ → Option ℕ → ℚ)
    (train test : List MLRow) :
    ((analyze_errors P train test).map (fun e => (e.1, e.2.1))).Nodup ∧
    (∀ e ∈ analyze_errors P train test,
      (test.filter (fun r => decide (r.lat = e.1 ∧ r.lon = e.2.1))) ≠ [] ∧
      e.2.2 = ((test.filter (fun r => decide (r.lat = e.1 ∧ r.lon = e.2.1))).map
            (fun r => (r.count : ℚ) -
              P r.lat r.lon r.dayNum
                ((time_mapping (train.map (fun x => x.timePeriod))).lookup
                  r.timePeriod))).sum /
          ((test.filter (fun r => decide (r.lat = e.1 ∧ r.lon = e.2.1))).length : ℚ)) ∧
    (∀ r ∈ test, ∃ e, e ∈ analyze_errors P train test ∧ e.1 = r.lat ∧ e.2.1 = r.lon) := by
  refine ⟨?_, ?_, ?_⟩
  · rw [analyze_errors, location_errors, List.map_map]
    show (List.map id (groupKeys locKey locLE
        (test.map (fun r => (r.lat, r.lon,
          row_error P (time_mapping (train.map (fun x => x.timePeriod))) r))))).Nodup
    rw [List.map_id]
    exact nodup_groupKeys _ _ _
  · intro e he
    rw [analyze_errors, location_errors] at he
    obtain ⟨k, hk, hek⟩ := List.mem_map.mp he
    subst hek
    have hfilt := filter_map_locKey P
      (time_mapping (train.map (fun x => x.timePeriod))) test k
    constructor
    · obtain ⟨a, ha, hak⟩ := mem_groupKeys.mp hk
      obtain ⟨r, hr, hra⟩ := List.mem_map.mp ha
      have hrk : r ∈ test.filter (fun x => decide (x.lat = k.1 ∧ x.lon = k.2)) := by
        refine List.mem_filter.mpr ⟨hr, ?_⟩
        subst hra
        have : (r.lat, r.lon) = k := hak
        simp [Prod.ext_iff] at this
        simp [this]
      exact List.ne_nil_of_mem hrk
    · show (((test.map (fun r => (r.lat, r.lon,
          row_error P (time_mapping (train.map (fun x => x.timePeriod))) r))).filter
            (fun e => decide (locKey e = k))).map (fun e => e.2.2)).sum / _ = _
      rw [hfilt, List.map_map, List.length_map]
      rfl
  · intro r hr
    refine ⟨((r.lat, r.lon).1, (r.lat, r.lon).2,
      (((test.map (fun x => (x.lat, x.lon,
          row_error P (time_mapping (train.map (fun y => y.timePeriod))) x))).filter
            (fun e => decide (locKey e = (r.lat, r.lon)))).map (fun e => e.2.2)).sum /
        (((test.map (fun x => (x.lat, x.lon,
          row_error P (time_mapping (train.map (fun y => y.timePeriod))) x))).filter
            (fun e => decide (locKey e = (r.lat, r.lon)))).length : ℚ)), ?_, rfl, rfl⟩
    rw [analyze_errors, location_errors]
    refine List.mem_map.mpr ⟨(r.lat, r.lon), ?_, rfl⟩
    refine mem_groupKeys.mpr ⟨(r.lat, r.lon,
      row_error P (time_mapping (train.map (fun y => y.timePeriod))) r), ?_, rfl⟩
    exact List.mem_map.mpr ⟨r, hr, rfl⟩

/-- Concrete instantiation of `c6_residual_mean_by_location`: the demo
analysis has one output row per distinct location. -/
theorem c6_residual_mean_by_location_witness :
    ((analyze_errors predictDemo trainDemo testDemo).map
      (fun e => (e.1, e.2.1))).Nodup :=
  (c6_residual_mean_by_location predictDemo trainDemo testDemo).1
